import Mathlib

set_option maxRecDepth 1000000

/-!
Verification of the my-ambilight repository: a UDP wire protocol for
addressable-LED pixel updates (crate udp-leds), the ESP32 server's
dispatch loop (wifi-ambilight-server/src/main.rs) and its LED signal
encoder (wifi-ambilight-server/src/leds.rs).

Bytes are modelled as Nat (every value produced by the code stays
below 256; where a claim quantifies over raw input bytes the relevant
bit-mask facts hold for all Nat or are stated with explicit bounds).
Rust functions that can panic are modelled with Option: a result of
none means the Rust code panics on that input.
-/

deriving instance DecidableEq for Except

namespace Ambilight

/-! ## Constants, from udp-leds/src/constants.rs -/

def MAX_LED_COUNT : Nat := 256

def MAX_MESSAGE_LENGTH : Nat := MAX_LED_COUNT * 3 + 2

def SERVER_FLAG : Nat := 0b11100110

def CLIENT_FLAG : Nat := 0b01101011

def INSTRUCTION_MASK : Nat := 0b11000000

def DEVICE_MASK : Nat := 0b00111111

def INSTRUCTION_HELLO : Nat := 0b11000000

def INSTRUCTION_SET_ACTIVE : Nat := 0b01000000

def INSTRUCTION_SEND_PIXELS : Nat := 0b00000000

def INSTRUCTION_SET_PIXEL : Nat := 0b10000000

/-! ## Error type, from udp-leds/src/error.rs -/

inductive Error where
  | InvalidMessageLength
  | InvalidFlag
deriving DecidableEq, Repr

/-! ## Client messages, from udp-leds/src/client.rs -/

inductive ClientMessages where
  | Hello
  | SetActive (device : Nat)
  | SendPixels (device : Nat) (pixels : List Nat)
  | SetPixel (device pixel r g b : Nat)
deriving DecidableEq, Repr

/-- ClientMessages::hello. -/
def ClientMessages.hello : ClientMessages := ClientMessages.Hello

/-- ClientMessages::set_active: asserts device < DEVICE_MASK, so the call
panics (modelled as none) for device ≥ DEVICE_MASK = 63. -/
def ClientMessages.set_active (device : Nat) : Option ClientMessages :=
  if device < DEVICE_MASK then some (ClientMessages.SetActive device) else none

/-- ClientMessages::send_pixels: asserts device < DEVICE_MASK. The pixels
argument is a fixed [u8; MAX_LED_COUNT * 3] array in the source. -/
def ClientMessages.send_pixels (device : Nat) (pixels : List Nat) : Option ClientMessages :=
  if device < DEVICE_MASK then some (ClientMessages.SendPixels device pixels) else none

/-- ClientMessages::set_pixel: asserts device < DEVICE_MASK. -/
def ClientMessages.set_pixel (device pixel r g b : Nat) : Option ClientMessages :=
  if device < DEVICE_MASK then some (ClientMessages.SetPixel device pixel r g b) else none

/-- TryFrom<&[u8]> for ClientMessages. The outer Option models panics:
in the SendPixels branch the source runs
pixels[..count].copy_from_slice(&value[2..MAX_LED_COUNT * 3 + 2]) where
count = value.len() - 2; the slice value[2..MAX_LED_COUNT * 3 + 2] panics
unless MAX_LED_COUNT * 3 + 2 ≤ value.len(), and copy_from_slice panics
unless count = MAX_LED_COUNT * 3. The final unmatched-instruction branch
is panic!("Unreachable"). -/
def ClientMessages.tryFrom (value : List Nat) : Option (Except Error ClientMessages) :=
  if value.length < 2 ∨ MAX_MESSAGE_LENGTH < value.length then
    some (Except.error Error.InvalidMessageLength)
  else if value.getD 0 0 ≠ CLIENT_FLAG then
    some (Except.error Error.InvalidFlag)
  else
    let instr := (value.getD 1 0).land INSTRUCTION_MASK
    if instr = INSTRUCTION_HELLO then
      some (Except.ok ClientMessages.Hello)
    else if instr = INSTRUCTION_SET_ACTIVE then
      if value.length < 2 then
        some (Except.error Error.InvalidMessageLength)
      else
        some (Except.ok (ClientMessages.SetActive ((value.getD 1 0).land DEVICE_MASK)))
    else if instr = INSTRUCTION_SEND_PIXELS then
      if MAX_LED_COUNT * 3 + 2 ≤ value.length ∧ value.length - 2 = MAX_LED_COUNT * 3 then
        some (Except.ok (ClientMessages.SendPixels ((value.getD 1 0).land DEVICE_MASK)
          ((value.drop 2).take (MAX_LED_COUNT * 3))))
      else
        none
    else if instr = INSTRUCTION_SET_PIXEL then
      if value.length < 6 then
        some (Except.error Error.InvalidMessageLength)
      else
        some (Except.ok (ClientMessages.SetPixel ((value.getD 1 0).land DEVICE_MASK)
          (value.getD 2 0) (value.getD 3 0) (value.getD 4 0) (value.getD 5 0)))
    else
      none

/-- Into<[u8; MAX_MESSAGE_LENGTH]> for ClientMessages: a zeroed buffer of
length MAX_MESSAGE_LENGTH with the header and payload written in. -/
def ClientMessages.encode : ClientMessages → List Nat
  | ClientMessages.Hello =>
      CLIENT_FLAG :: INSTRUCTION_HELLO :: List.replicate (MAX_MESSAGE_LENGTH - 2) 0
  | ClientMessages.SetActive device =>
      CLIENT_FLAG :: (INSTRUCTION_SET_ACTIVE.lor device) ::
        List.replicate (MAX_MESSAGE_LENGTH - 2) 0
  | ClientMessages.SendPixels device pixels =>
      CLIENT_FLAG :: (INSTRUCTION_SEND_PIXELS.lor device) ::
        (pixels ++ List.replicate (MAX_MESSAGE_LENGTH - 2 - pixels.length) 0)
  | ClientMessages.SetPixel device pixel r g b =>
      CLIENT_FLAG :: (INSTRUCTION_SET_PIXEL.lor device) ::
        pixel :: r :: g :: b :: List.replicate (MAX_MESSAGE_LENGTH - 6) 0

/-- The messages constructible through the public constructors: every
constructor taking a device id asserts device < DEVICE_MASK, and the
pixels argument of send_pixels is a fixed-size [u8; MAX_LED_COUNT * 3]
array. -/
def ClientMessages.wf : ClientMessages → Prop
  | ClientMessages.Hello => True
  | ClientMessages.SetActive d => d < DEVICE_MASK
  | ClientMessages.SendPixels d px => d < DEVICE_MASK ∧ px.length = MAX_LED_COUNT * 3
  | ClientMessages.SetPixel d _ _ _ _ => d < DEVICE_MASK

/-! ## Server messages, from udp-leds/src/server.rs -/

inductive ServerMessages where
  | Hello
deriving DecidableEq, Repr

/-- TryFrom<&[u8]> for ServerMessages (no panicking path). -/
def ServerMessages.tryFrom (value : List Nat) : Except Error ServerMessages :=
  if value.length ≤ 2 then
    Except.error Error.InvalidMessageLength
  else if value.getD 0 0 ≠ SERVER_FLAG then
    Except.error Error.InvalidFlag
  else if (value.getD 1 0).land INSTRUCTION_MASK = INSTRUCTION_HELLO then
    Except.ok ServerMessages.Hello
  else
    Except.error Error.InvalidFlag

/-- Into<[u8; MAX_MESSAGE_LENGTH]> for ServerMessages. -/
def ServerMessages.encode : ServerMessages → List Nat
  | ServerMessages.Hello =>
      SERVER_FLAG :: INSTRUCTION_HELLO :: List.replicate (MAX_MESSAGE_LENGTH - 2) 0

/-! ## LED buffer and RMT signal, from wifi-ambilight-server/src/leds.rs.
The buffer is generic in the LED count L (Leds<const L: usize>). -/

namespace Leds

/-- Leds::new: pixels = [255; L * 3]. -/
def new (L : Nat) : List Nat := List.replicate (L * 3) 255

/-- Leds::set: pixels.copy_from_slice(&bytes[..L * 3]). The slice
bytes[..L * 3] panics (none) when bytes holds fewer than L * 3 bytes;
otherwise the whole pixel buffer is replaced by those L * 3 bytes. -/
def set (L : Nat) (bytes : List Nat) : Option (List Nat) :=
  if L * 3 ≤ bytes.length then some (bytes.take (L * 3)) else none

end Leds

/-- An RMT pulse: pin state (true = High) and duration in nanoseconds. -/
structure Pulse where
  high : Bool
  nanos : Nat
deriving DecidableEq, Repr

def T0H : Nat := 350

def T1H : Nat := 700

def T0L : Nat := 800

def T1L : Nat := 600

/-- The pulse pair written for a 1 bit (long-high, short-low). -/
def onePair : Pulse × Pulse := (⟨true, T1H⟩, ⟨false, T1L⟩)

/-- The pulse pair written for a 0 bit (short-high, long-low). -/
def zeroPair : Pulse × Pulse := (⟨true, T0H⟩, ⟨false, T0L⟩)

/-- FixedLengthSignal::new() fills the signal with default (zero-length,
low) pulse pairs. -/
def defaultPair : Pulse × Pulse := (⟨false, 0⟩, ⟨false, 0⟩)

/-- The inner loop body of Leds::to_rmt_signal for one buffer byte b at
buffer index i: for bit in 0..8 the source rebinds
let bit = byte & (1 << bit) != 0 and then writes to slot
i * 8 + bit as usize, where bit is the rebound BOOLEAN (0 or 1), not the
loop counter. List.set ignores out-of-range indices just as the ignored
Result of FixedLengthSignal::set does. -/
def writeBytePulses (sig : List (Pulse × Pulse)) (i b : Nat) : List (Pulse × Pulse) :=
  (List.range 8).foldl (fun s bit =>
    let bv : Bool := b.land (1 <<< bit) != 0
    s.set (i * 8 + (if bv then 1 else 0)) (if bv then onePair else zeroPair)) sig

/-- Leds::to_rmt_signal: start from a FixedLengthSignal of L * 3 * 8
default pairs and process every buffer byte in order. -/
def to_rmt_signal (L : Nat) (pixels : List Nat) : List (Pulse × Pulse) :=
  pixels.enum.foldl (fun s p => writeBytePulses s p.1 p.2)
    (List.replicate (L * 3 * 8) defaultPair)

/-! ## Dispatch loop, from wifi-ambilight-server/src/main.rs -/

def CLIENT_FLAG_BYTE : Nat := 0b01101011

def SERVER_FLAG_BYTE : Nat := 0b11100110

def DEVICE_ID_MASK : Nat := 0b111111

def is_hello (header : Nat) : Bool := header.land INSTRUCTION_MASK == 0b11000000

def is_set_active (header : Nat) : Bool := header.land INSTRUCTION_MASK == 0b01000000

/-- The receive-loop state: the active-device register and the pixel
buffer (the Leds<LED_COUNT> store). -/
structure ServerState where
  active : Nat
  pixels : List Nat
deriving DecidableEq, Repr

/-- let mut active: u8 = 255; the pixel buffer starts as Leds::new(). -/
def initialState (L : Nat) : ServerState :=
  { active := 255, pixels := Leds.new L }

/-- The admission test of the receive loop: a device is admitted exactly
when it equals the active register (the loop continues on
device != active). -/
def admits (s : ServerState) (device : Nat) : Bool := device == s.active

/-- One iteration of the receive loop in main(), on a datagram buf
(the size received bytes). Returns none when the body panics (inside
Leds::set); otherwise the new state and the optional UDP reply. -/
def dispatchStep (L : Nat) (s : ServerState) (buf : List Nat) :
    Option (ServerState × Option (List Nat)) :=
  if buf.length < 2 ∨ buf.getD 0 0 ≠ CLIENT_FLAG_BYTE then
    some (s, none)
  else
    let header := buf.getD 1 0
    if is_hello header then
      some (s, some [SERVER_FLAG_BYTE, 0b11000000])
    else
      let device := header.land DEVICE_ID_MASK
      let active := if is_set_active header then device else s.active
      if device ≠ active then
        some ({ s with active := active }, none)
      else
        match Leds.set L (buf.drop 2) with
        | some px => some ({ active := active, pixels := px }, none)
        | none => none

/-! ## Helper lemmas on the bit-level header encoding -/

/-- Oring the SetActive instruction code onto a 6-bit device id and masking
recovers the instruction code and the device id. -/
theorem setActive_header_bits :
    ∀ d < 64, (Nat.lor 64 d).land 192 = 64 ∧ (Nat.lor 64 d).land 63 = d := by
  decide

/-- Oring the SetPixel instruction code onto a 6-bit device id and masking
recovers the instruction code and the device id. -/
theorem setPixel_header_bits :
    ∀ d < 64, (Nat.lor 128 d).land 192 = 128 ∧ (Nat.lor 128 d).land 63 = d := by
  decide

/-- A 6-bit device id used directly as the SendPixels header byte has
instruction bits zero and masks back to itself. -/
theorem sendPixels_header_bits :
    ∀ d < 64, d.land 192 = 0 ∧ d.land 63 = d := by
  decide

/-- Round trip for SetActive messages with a constructible device id. -/
theorem setActive_roundtrip :
    ∀ d < 63, ClientMessages.tryFrom (ClientMessages.encode (ClientMessages.SetActive d)) =
      some (Except.ok (ClientMessages.SetActive d)) := by
  decide

/-- Round trip for SetPixel messages with a constructible device id. -/
theorem setPixel_roundtrip (d p r g b : Nat) (hd : d < 63) :
    ClientMessages.tryFrom (ClientMessages.encode (ClientMessages.SetPixel d p r g b)) =
      some (Except.ok (ClientMessages.SetPixel d p r g b)) := by
  have h1 := (setPixel_header_bits d (by omega)).1
  have h2 := (setPixel_header_bits d (by omega)).2
  simp only [ClientMessages.encode, ClientMessages.tryFrom, MAX_MESSAGE_LENGTH,
    MAX_LED_COUNT, CLIENT_FLAG, INSTRUCTION_MASK, INSTRUCTION_HELLO,
    INSTRUCTION_SET_ACTIVE, INSTRUCTION_SEND_PIXELS, INSTRUCTION_SET_PIXEL,
    DEVICE_MASK, List.getD_cons_zero, List.getD_cons_succ,
    List.length_cons, List.length_replicate]
  norm_num [h1, h2]

/-- Round trip for SendPixels messages with a constructible device id and
a full-size pixel array. -/
theorem sendPixels_roundtrip (d : Nat) (px : List Nat) (hd : d < 63)
    (hlen : px.length = MAX_LED_COUNT * 3) :
    ClientMessages.tryFrom (ClientMessages.encode (ClientMessages.SendPixels d px)) =
      some (Except.ok (ClientMessages.SendPixels d px)) := by
  have h1 := (sendPixels_header_bits d (by omega)).1
  have h2 := (sendPixels_header_bits d (by omega)).2
  simp only [MAX_LED_COUNT] at hlen
  simp only [ClientMessages.encode, ClientMessages.tryFrom, MAX_MESSAGE_LENGTH,
    MAX_LED_COUNT, CLIENT_FLAG, INSTRUCTION_MASK, INSTRUCTION_HELLO,
    INSTRUCTION_SET_ACTIVE, INSTRUCTION_SEND_PIXELS, INSTRUCTION_SET_PIXEL,
    DEVICE_MASK, List.getD_cons_zero, List.getD_cons_succ,
    List.length_cons, List.length_append, List.length_replicate, hlen,
    List.drop_succ_cons, List.drop_zero]
  have h0 : Nat.lor 0 d = d := Nat.zero_or d
  have ht : List.take 768 px = px := List.take_of_length_le (by omega)
  norm_num [h0, h1, h2, ht]

/-- Every constructible message encodes to the fixed maximum-size buffer. -/
theorem encode_length (m : ClientMessages) (hm : m.wf) :
    (ClientMessages.encode m).length = MAX_MESSAGE_LENGTH := by
  cases m with
  | Hello => decide
  | SetActive d =>
      simp [ClientMessages.encode, MAX_MESSAGE_LENGTH, MAX_LED_COUNT]
  | SendPixels d px =>
      have hlen := hm.2
      simp only [MAX_MESSAGE_LENGTH, MAX_LED_COUNT] at hlen ⊢
      simp [ClientMessages.encode, MAX_MESSAGE_LENGTH, MAX_LED_COUNT, hlen]
  | SetPixel d p r g b =>
      simp [ClientMessages.encode, MAX_MESSAGE_LENGTH, MAX_LED_COUNT]

/-- A well-formed SendPixels or SetPixel datagram whose device id differs
from the active register leaves the receive-loop state unchanged and
sends nothing back. -/
theorem dispatch_mismatch_noop (L : Nat) (s : ServerState) (buf : List Nat)
    (h2 : 2 ≤ buf.length) (hflag : buf.getD 0 0 = CLIENT_FLAG_BYTE)
    (hinstr : (buf.getD 1 0).land INSTRUCTION_MASK = INSTRUCTION_SEND_PIXELS ∨
      (buf.getD 1 0).land INSTRUCTION_MASK = INSTRUCTION_SET_PIXEL)
    (hdev : (buf.getD 1 0).land DEVICE_ID_MASK ≠ s.active) :
    dispatchStep L s buf = some (s, none) := by
  simp only [dispatchStep]
  rw [if_neg (by push_neg; exact ⟨by omega, hflag⟩)]
  have hh : is_hello (buf.getD 1 0) = false := by
    unfold is_hello
    rcases hinstr with h | h <;> rw [h] <;> decide
  have hsa : is_set_active (buf.getD 1 0) = false := by
    unfold is_set_active
    rcases hinstr with h | h <;> rw [h] <;> decide
  simp only [hh, hsa, Bool.false_eq_true, if_false]
  rw [if_pos hdev]

/-- An admitted non-Hello datagram shorter than 2 + L * 3 bytes makes the
receive-loop body panic inside Leds::set. -/
theorem dispatch_admitted_short_panics (L : Nat) (s : ServerState) (buf : List Nat)
    (h2 : 2 ≤ buf.length) (hflag : buf.getD 0 0 = CLIENT_FLAG_BYTE)
    (hnh : is_hello (buf.getD 1 0) = false)
    (hadm : is_set_active (buf.getD 1 0) = true ∨
      (buf.getD 1 0).land DEVICE_ID_MASK = s.active)
    (hshort : buf.length < 2 + L * 3) :
    dispatchStep L s buf = none := by
  simp only [dispatchStep]
  rw [if_neg (by push_neg; exact ⟨by omega, hflag⟩)]
  simp only [hnh, Bool.false_eq_true, if_false]
  have hda : ¬((buf.getD 1 0).land DEVICE_ID_MASK ≠
      (if is_set_active (buf.getD 1 0) then (buf.getD 1 0).land DEVICE_ID_MASK
        else s.active)) := by
    rw [not_ne_iff]
    cases hsa : is_set_active (buf.getD 1 0) with
    | true => rw [if_pos rfl]
    | false =>
        rw [if_neg (by simp)]
        rcases hadm with h | h
        · rw [hsa] at h; cases h
        · exact h
  rw [if_neg hda]
  have hset : Leds.set L (buf.drop 2) = none := by
    unfold Leds.set
    rw [if_neg]
    simp only [List.length_drop]
    omega
  rw [hset]

/-! ## Claim theorems -/

/-- C1: the claim says a SendPixels datagram of any length between 2 and
2 + 3 * MAX_LED_COUNT decodes to a zero-filled full-size pixel array. On
the code a short SendPixels slice makes try_from panic (result none):
the very input of the crate's own unit test test_try_from_send_pixels, a
14-byte SendPixels message, hits the out-of-range slice
value[2..MAX_LED_COUNT * 3 + 2]. Only a full-length message decodes. -/
theorem c1_short_sendPixels_decode_panics :
    ClientMessages.tryFrom [107, 0, 1, 2, 3, 4, 5, 6, 7, 8, 9, 10, 11, 12] = none ∧
    ClientMessages.tryFrom (107 :: 0 :: List.replicate 768 7) =
      some (Except.ok (ClientMessages.SendPixels 0 (List.replicate 768 7))) := by
  constructor
  · decide
  · decide

/-- C2: the claim says each byte's k-th visited bit (LSB first) lands in
the k-th pulse slot of its group of eight, so a byte 0b00000001 puts the
one-pair first. On the code the slot index is i * 8 + (bit as usize)
where bit is the rebound boolean, so for the buffer [1, 0, 0] (L = 1) the
one-pair lands in slot 1, slot 0 holds the zero-pair, and slots 2..7 keep
the default pair; the total length L * 3 * 8 does hold. -/
theorem c2_rmt_signal_misplaces_bits :
    (to_rmt_signal 1 [1, 0, 0]).length = 1 * 3 * 8 ∧
    (to_rmt_signal 1 [1, 0, 0]).getD 0 defaultPair = zeroPair ∧
    (to_rmt_signal 1 [1, 0, 0]).getD 1 defaultPair = onePair ∧
    (to_rmt_signal 1 [1, 0, 0]).getD 2 defaultPair = defaultPair := by
  refine ⟨by decide, by decide, by decide, by decide⟩

/-- C3: the claim says decoding is total on every byte slice. On the code
the 3-byte slice [CLIENT_FLAG, 0, 5] (a SendPixels header with one
payload byte) panics in the SendPixels branch, modelled as none. -/
theorem c3_decode_not_total :
    ClientMessages.tryFrom [107, 0, 5] = none := by
  decide

/-- C7: the claim says a server-origin slice of length exactly 2 with the
server flag and Hello bits decodes successfully. The server decoder
rejects any slice of length ≤ 2 with InvalidMessageLength — in
particular the exact 2-byte hello reply [SERVER_FLAG, 0b11000000] that
main.rs sends — while the client decoder does accept length 2. -/
theorem c7_server_hello_length_two_rejected :
    ServerMessages.tryFrom [230, 192] = Except.error Error.InvalidMessageLength ∧
    ClientMessages.tryFrom [107, 192] = some (Except.ok ClientMessages.Hello) := by
  refine ⟨by decide, by decide⟩

/-- C8: the claim says every device-id constructor accepts every id < 64,
in particular 63. On the code each constructor asserts
device < DEVICE_MASK with DEVICE_MASK = 63, so exactly the ids < 63 are
accepted and 63 itself is rejected (the assert panics, modelled none). -/
theorem c8_constructors_reject_63 (d p r g b : Nat) (px : List Nat) :
    ((ClientMessages.set_active d).isSome ↔ d < 63) ∧
    ((ClientMessages.send_pixels d px).isSome ↔ d < 63) ∧
    ((ClientMessages.set_pixel d p r g b).isSome ↔ d < 63) ∧
    ClientMessages.set_active 63 = none := by
  refine ⟨?_, ?_, ?_, by decide⟩ <;>
    simp only [ClientMessages.set_active, ClientMessages.send_pixels,
      ClientMessages.set_pixel, DEVICE_MASK] <;>
    split <;> simp_all

/-- C4: every message constructible through the public constructors
(device id < DEVICE_MASK, full-size pixel array) encodes to the fixed
maximum-size buffer, and decoding that buffer yields the message back,
for the client family and for the server Hello alike. -/
theorem c4_encode_decode_roundtrip :
    (∀ m : ClientMessages, m.wf →
      (ClientMessages.encode m).length = MAX_MESSAGE_LENGTH ∧
      ClientMessages.tryFrom (ClientMessages.encode m) = some (Except.ok m)) ∧
    ((ServerMessages.encode ServerMessages.Hello).length = MAX_MESSAGE_LENGTH ∧
      ServerMessages.tryFrom (ServerMessages.encode ServerMessages.Hello) =
        Except.ok ServerMessages.Hello) := by
  constructor
  · intro m hm
    refine ⟨encode_length m hm, ?_⟩
    cases m with
    | Hello => decide
    | SetActive d => exact setActive_roundtrip d hm
    | SendPixels d px => exact sendPixels_roundtrip d px hm.1 hm.2
    | SetPixel d p r g b => exact setPixel_roundtrip d p r g b hm
  · exact ⟨by decide, by decide⟩

/-- Witness for C4 at the concrete message SetPixel 3 5 10 20 30. -/
theorem c4_encode_decode_roundtrip_witness :
    ClientMessages.wf (ClientMessages.SetPixel 3 5 10 20 30) ∧
    ClientMessages.tryFrom (ClientMessages.encode (ClientMessages.SetPixel 3 5 10 20 30)) =
      some (Except.ok (ClientMessages.SetPixel 3 5 10 20 30)) := by
  have hwf : ClientMessages.wf (ClientMessages.SetPixel 3 5 10 20 30) := by
    show (3 : Nat) < DEVICE_MASK
    decide
  exact ⟨hwf, (c4_encode_decode_roundtrip.1 _ hwf).2⟩

/-- C5: the active register is a single scalar, so at most one device id
is admitted at any instant; and a SendPixels or SetPixel datagram whose
embedded device id differs from the active one leaves the state — in
particular the pixel buffer — unchanged and sends no reply at all. -/
theorem c5_single_owner_and_mismatch_noop (L : Nat) (s : ServerState) (buf : List Nat)
    (h2 : 2 ≤ buf.length) (hflag : buf.getD 0 0 = CLIENT_FLAG_BYTE)
    (hinstr : (buf.getD 1 0).land INSTRUCTION_MASK = INSTRUCTION_SEND_PIXELS ∨
      (buf.getD 1 0).land INSTRUCTION_MASK = INSTRUCTION_SET_PIXEL)
    (hdev : (buf.getD 1 0).land DEVICE_ID_MASK ≠ s.active) :
    dispatchStep L s buf = some (s, none) ∧
    ∀ d₁ d₂ : Nat, admits s d₁ = true → admits s d₂ = true → d₁ = d₂ := by
  refine ⟨dispatch_mismatch_noop L s buf h2 hflag hinstr hdev, ?_⟩
  intro d₁ d₂ hd₁ hd₂
  simp only [admits, beq_iff_eq] at hd₁ hd₂
  omega

/-- Witness for C5: a SendPixels datagram for device 5 while device 3 is
active changes nothing and draws no reply. -/
theorem c5_single_owner_and_mismatch_noop_witness :
    2 ≤ ([107, 5, 9] : List Nat).length ∧
    dispatchStep 1 { active := 3, pixels := [255, 255, 255] } [107, 5, 9] =
      some ({ active := 3, pixels := [255, 255, 255] }, none) :=
  ⟨by decide,
    (c5_single_owner_and_mismatch_noop 1 { active := 3, pixels := [255, 255, 255] }
      [107, 5, 9] (by decide) (by decide) (Or.inl (by decide)) (by decide)).1⟩

/-- C6: the claim says an admitted SetPixel(d, 5, 10, 20, 30) changes only
LED index 5's three bytes. The dispatch loop never interprets the SetPixel
instruction: it passes the raw payload to Leds::set, which replaces the
whole buffer, so LED 0 becomes (5, 10, 20), LED 5's bytes become 0, and
every previously lit byte is lost (L = 6, prior buffer all 255). -/
theorem c6_setpixel_overwrites_whole_buffer :
    dispatchStep 6 { active := 0, pixels := List.replicate 18 255 }
      (ClientMessages.encode (ClientMessages.SetPixel 0 5 10 20 30)) =
      some ({ active := 0, pixels := [5, 10, 20, 30] ++ List.replicate 14 0 }, none) := by
  decide

/-- C9: before any SetActive is processed the active register holds the
sentinel 255, outside 0..63; every SendPixels or SetPixel datagram has an
embedded device id of at most 63, so none is admitted and the pixel
buffer stays untouched. -/
theorem c9_initial_sentinel_blocks_writes (L : Nat) (buf : List Nat)
    (h2 : 2 ≤ buf.length) (hflag : buf.getD 0 0 = CLIENT_FLAG_BYTE)
    (hinstr : (buf.getD 1 0).land INSTRUCTION_MASK = INSTRUCTION_SEND_PIXELS ∨
      (buf.getD 1 0).land INSTRUCTION_MASK = INSTRUCTION_SET_PIXEL) :
    63 < (initialState L).active ∧
    dispatchStep L (initialState L) buf = some (initialState L, none) := by
  have hle : (buf.getD 1 0).land DEVICE_ID_MASK ≤ DEVICE_ID_MASK := Nat.and_le_right
  have hdev : (buf.getD 1 0).land DEVICE_ID_MASK ≠ (initialState L).active := by
    simp only [DEVICE_ID_MASK] at hle
    show (buf.getD 1 0).land 63 ≠ 255
    omega
  exact ⟨by norm_num [initialState],
    dispatch_mismatch_noop L (initialState L) buf h2 hflag hinstr hdev⟩

/-- Witness for C9: a SendPixels datagram for device 2 against the fresh
state is silently dropped. -/
theorem c9_initial_sentinel_blocks_writes_witness :
    2 ≤ ([107, 2, 0] : List Nat).length ∧
    dispatchStep 1 (initialState 1) [107, 2, 0] = some (initialState 1, none) :=
  ⟨by decide,
    (c9_initial_sentinel_blocks_writes 1 [107, 2, 0] (by decide) (by decide)
      (Or.inl (by decide))).2⟩

/-- C10: Leds::set panics exactly when its byte slice holds fewer than
L * 3 bytes, and an admitted non-Hello datagram shorter than 2 + L * 3
bytes — a bare 2-byte SetActive included — makes the receive loop panic
there on the raw payload buf[2..size]. -/
theorem c10_short_admitted_datagram_panics :
    (∀ (L : Nat) (bytes : List Nat), Leds.set L bytes = none ↔ bytes.length < L * 3) ∧
    (∀ (L : Nat) (s : ServerState) (buf : List Nat),
      2 ≤ buf.length → buf.getD 0 0 = CLIENT_FLAG_BYTE →
      is_hello (buf.getD 1 0) = false →
      (is_set_active (buf.getD 1 0) = true ∨
        (buf.getD 1 0).land DEVICE_ID_MASK = s.active) →
      buf.length < 2 + L * 3 →
      dispatchStep L s buf = none) := by
  constructor
  · intro L bytes
    unfold Leds.set
    rcases Nat.lt_or_ge bytes.length (L * 3) with h | h
    · rw [if_neg (by omega)]
      simpa using h
    · rw [if_pos h]
      simp
      omega
  · intro L s buf h2 hflag hnh hadm hshort
    exact dispatch_admitted_short_panics L s buf h2 hflag hnh hadm hshort

/-- Witness for C10: the shortest well-formed SetActive datagram
[CLIENT_FLAG, 0b01000010] is always admitted (it activates its own
device) and panics for L = 1. -/
theorem c10_short_admitted_datagram_panics_witness :
    2 ≤ ([107, 66] : List Nat).length ∧
    dispatchStep 1 { active := 9, pixels := [255, 255, 255] } [107, 66] = none :=
  ⟨by decide,
    c10_short_admitted_datagram_panics.2 1 { active := 9, pixels := [255, 255, 255] }
      [107, 66] (by decide) (by decide) (by decide) (Or.inl (by decide)) (by decide)⟩

/-- Witness for C8 at device id 5. -/
theorem c8_constructors_reject_63_witness :
    ((ClientMessages.set_active 5).isSome ↔ 5 < 63) ∧
    ((ClientMessages.send_pixels 5 []).isSome ↔ 5 < 63) ∧
    ((ClientMessages.set_pixel 5 0 0 0 0).isSome ↔ 5 < 63) ∧
    ClientMessages.set_active 63 = none :=
  c8_constructors_reject_63 5 0 0 0 0 []

end Ambilight
